import Mathlib

/-!
Verification of the Wi-Fi provisioning firmware (`src/main/app_main.c`)
against its natural-language specification.

The C program is embedded shallowly:

* calls into the external subsystems (NVS, Wi-Fi driver, provisioning
  manager, QR renderer) are modelled as an inductive `Call` type, and each
  C function is translated to the list of calls it performs;
* `esp_err_t` values are integers, `ESP_OK = 0`;
* `ESP_ERROR_CHECK(e)` is modelled as emitting an `esp_abort` call and
  stopping when `e` is not `ESP_OK`;
* the FreeRTOS queue of the button handler is a bounded list (capacity 5,
  from `xQueueCreate(5, ...)`);
* the asynchronous events (boot check, button presses after the debounce
  delay, provisioning/Wi-Fi notifications) are serialized into a list and
  handled atomically, one after the other, with the boot-time
  `wifi_prov_mgr_is_provisioned` check first, matching the program order of
  `app_main` and the single button worker task.
-/

namespace WifiProv

/-- Return code `ESP_OK` from `esp_err.h`. -/
def ESP_OK : Int := 0

/-- Return code `ESP_FAIL` from `esp_err.h`. -/
def ESP_FAIL : Int := -1

/-- Return code `ESP_ERR_NVS_NO_FREE_PAGES` from `nvs.h`. -/
def ESP_ERR_NVS_NO_FREE_PAGES : Int := 0x110d

/-- Return code `ESP_ERR_NVS_NEW_VERSION_FOUND` from `nvs.h`. -/
def ESP_ERR_NVS_NEW_VERSION_FOUND : Int := 0x1110

/-- The external calls `app_main.c` performs, one constructor per C API
function that the file invokes (logging calls are omitted: they carry no
state).  `esp_abort` stands for the abort performed by a failing
`ESP_ERROR_CHECK`. -/
inductive Call
  | nvs_flash_init
  | nvs_flash_erase
  | esp_wifi_disconnect
  | esp_wifi_connect
  | esp_wifi_set_mode_sta
  | esp_wifi_start
  | wifi_prov_mgr_is_provisioned
  | wifi_prov_mgr_init
  | wifi_prov_mgr_start_provisioning
  | wifi_prov_mgr_stop_provisioning
  | wifi_prov_mgr_reset_provisioning
  | wifi_prov_mgr_deinit
  | esp_qrcode_generate
  | esp_abort
deriving DecidableEq, Repr

/-- State of the external provisioning manager: whether it is initialized
(`wifi_prov_mgr_init` .. `wifi_prov_mgr_deinit`) and whether a provisioning
session is currently active (`wifi_prov_mgr_start_provisioning` ..
`wifi_prov_mgr_stop_provisioning`). -/
structure ProvState where
  inited : Bool
  active : Bool
deriving DecidableEq, Repr

/-- The provisioning-manager state transition performed by each call. -/
def applyCall (s : ProvState) : Call → ProvState
  | Call.wifi_prov_mgr_init => { s with inited := true }
  | Call.wifi_prov_mgr_start_provisioning => { s with active := true }
  | Call.wifi_prov_mgr_stop_provisioning => { s with active := false }
  | Call.wifi_prov_mgr_deinit => { inited := false, active := false }
  | _ => s

/-- Calls of `stop_provisioning` (app_main.c lines 86-90): stop, reset,
deinit, in that order. -/
def stop_provisioning : List Call :=
  [Call.wifi_prov_mgr_stop_provisioning, Call.wifi_prov_mgr_reset_provisioning,
   Call.wifi_prov_mgr_deinit]

/-- Calls of `start_provisioning` (app_main.c lines 67-83) on the
error-free path: init, start, then QR payload rendering. -/
def start_provisioning : List Call :=
  [Call.wifi_prov_mgr_init, Call.wifi_prov_mgr_start_provisioning,
   Call.esp_qrcode_generate]

/-- The serialized asynchronous events: a debounce-settled button press
carrying the sampled pin level (app_main.c lines 99-112), and the
notifications dispatched to `event_handler` (lines 31-57). -/
inductive Event
  | buttonPress (settledLevel : Bool)
  | provStarted
  | credReceived
  | credSuccess
  | provEnded
  | staStarted
  | staGotIp
deriving DecidableEq, Repr

/-- Calls performed when one event is handled.  The button branch mirrors
`button_task` lines 104-109: on a high settled level it runs
`esp_wifi_disconnect`, `stop_provisioning`, `start_provisioning`; the
state argument is unused because the C code consults no session state.
`event_handler` only logs, except `WIFI_EVENT_STA_START` which calls
`esp_wifi_connect` (line 52). -/
def handleEvent (_s : ProvState) : Event → List Call
  | Event.buttonPress settledLevel =>
      if settledLevel then
        Call.esp_wifi_disconnect :: (stop_provisioning ++ start_provisioning)
      else []
  | Event.staStarted => [Call.esp_wifi_connect]
  | _ => []

/-- Run a list of serialized events, threading the provisioning-manager
state through the emitted calls. -/
def runFrom (s : ProvState) : List Event → List Call
  | [] => []
  | e :: es => handleEvent s e ++ runFrom ((handleEvent s e).foldl applyCall s) es

/-- The boot-time provisioned check of `app_main` (lines 156-165): query
`wifi_prov_mgr_is_provisioned` (modelled by its return code `ret` and the
out-parameter `provisioned`); on a non-OK return or a false out-value,
start provisioning, otherwise enter station mode. -/
def boot_provision_check (ret : Int) (provisioned : Bool) : List Call :=
  Call.wifi_prov_mgr_is_provisioned ::
    (if ret ≠ ESP_OK ∨ provisioned = false then start_provisioning
     else [Call.esp_wifi_set_mode_sta, Call.esp_wifi_start])

/-- At boot the provisioning manager is neither initialized nor active. -/
def initialProvState : ProvState := ⟨false, false⟩

/-- The full serialized call trace of a run of the program: the boot-time
check first (it precedes the first possible settled button event in program
order), then the serialized asynchronous events. -/
def app_main_run (ret : Int) (provisioned : Bool) (events : List Event) : List Call :=
  boot_provision_check ret provisioned ++
    runFrom ((boot_provision_check ret provisioned).foldl applyCall initialProvState) events

/-- Safety predicate for claim C1: scanning a call list from state `s`,
every `wifi_prov_mgr_start_provisioning` call happens while no session is
active. -/
def startSafe : ProvState → List Call → Bool
  | _, [] => true
  | s, c :: cs =>
      (if c = Call.wifi_prov_mgr_start_provisioning then !s.active else true) &&
        startSafe (applyCall s c) cs

/-- States observed just before each call of a list, scanning from `s`. -/
def statesBefore (s : ProvState) : List Call → List ProvState
  | [] => []
  | c :: cs => s :: statesBefore (applyCall s c) cs

/-- Predicate selecting the provisioning-manager calls among all external
calls. -/
def isProvMgrCall : Call → Bool
  | Call.wifi_prov_mgr_is_provisioned => true
  | Call.wifi_prov_mgr_init => true
  | Call.wifi_prov_mgr_start_provisioning => true
  | Call.wifi_prov_mgr_stop_provisioning => true
  | Call.wifi_prov_mgr_reset_provisioning => true
  | Call.wifi_prov_mgr_deinit => true
  | _ => false

lemma startSafe_append (a : List Call) (s : ProvState) (b : List Call) :
    startSafe s (a ++ b) = (startSafe s a && startSafe (a.foldl applyCall s) b) := by
  induction a generalizing s with
  | nil => simp [startSafe]
  | cons c cs ih => simp [startSafe, ih, Bool.and_assoc]

lemma handleEvent_startSafe (s : ProvState) (e : Event) :
    startSafe s (handleEvent s e) = true := by
  cases e with
  | buttonPress lvl =>
      cases lvl <;>
        simp [handleEvent, stop_provisioning, start_provisioning, startSafe, applyCall]
  | provStarted => simp [handleEvent, startSafe]
  | credReceived => simp [handleEvent, startSafe]
  | credSuccess => simp [handleEvent, startSafe]
  | provEnded => simp [handleEvent, startSafe]
  | staStarted => simp [handleEvent, startSafe, applyCall]
  | staGotIp => simp [handleEvent, startSafe]

lemma runFrom_startSafe (events : List Event) (s : ProvState) :
    startSafe s (runFrom s events) = true := by
  induction events generalizing s with
  | nil => simp [runFrom, startSafe]
  | cons e es ih =>
      simp [runFrom, startSafe_append, handleEvent_startSafe, ih]

lemma boot_startSafe (ret : Int) (provisioned : Bool) :
    startSafe initialProvState (boot_provision_check ret provisioned) = true := by
  rw [boot_provision_check]
  split <;> decide

/-- Claim C1: in every serialized run of the program — the boot-time
provisioned check followed by any sequence of settled button presses and
asynchronous notifications — `wifi_prov_mgr_start_provisioning` is never
called while a provisioning session is already active: every start happens
either from the initial inactive state (not-provisioned boot) or after the
stop/reset/deinit of the previous session has completed. -/
theorem c1_never_start_while_active (ret : Int) (provisioned : Bool) (events : List Event) :
    startSafe initialProvState (app_main_run ret provisioned events) = true := by
  rw [app_main_run, startSafe_append, boot_startSafe, runFrom_startSafe]
  rfl

/-- Claim C2: a debounce-accepted button press performs exactly the call
sequence disconnect, stop, reset, deinit, init, start (followed only by
the QR rendering, which is not a provisioning-subsystem call); restricted
to provisioning-manager calls the sequence is exactly stop, reset, deinit,
init, start; and a credential-received notification performs no call at
all, so it cannot interleave any provisioning-subsystem call. -/
theorem c2_button_press_exact_sequence (s : ProvState) :
    handleEvent s (Event.buttonPress true) =
      [Call.esp_wifi_disconnect, Call.wifi_prov_mgr_stop_provisioning,
       Call.wifi_prov_mgr_reset_provisioning, Call.wifi_prov_mgr_deinit,
       Call.wifi_prov_mgr_init, Call.wifi_prov_mgr_start_provisioning,
       Call.esp_qrcode_generate] ∧
    (handleEvent s (Event.buttonPress true)).filter isProvMgrCall =
      [Call.wifi_prov_mgr_stop_provisioning, Call.wifi_prov_mgr_reset_provisioning,
       Call.wifi_prov_mgr_deinit, Call.wifi_prov_mgr_init,
       Call.wifi_prov_mgr_start_provisioning] ∧
    handleEvent s Event.credReceived = [] :=
  ⟨rfl, rfl, rfl⟩

/-- Claim C9: if the boot-time `wifi_prov_mgr_is_provisioned` query itself
returns a non-OK code, `app_main` takes the not-provisioned branch and
starts provisioning (init, start, QR) without aborting, whatever the
out-parameter holds. -/
theorem c9_is_provisioned_error_starts_provisioning (ret : Int) (provisioned : Bool)
    (h : ret ≠ ESP_OK) :
    boot_provision_check ret provisioned =
      [Call.wifi_prov_mgr_is_provisioned, Call.wifi_prov_mgr_init,
       Call.wifi_prov_mgr_start_provisioning, Call.esp_qrcode_generate] ∧
    Call.esp_abort ∉ boot_provision_check ret provisioned := by
  have hcond : ret ≠ ESP_OK ∨ provisioned = false := Or.inl h
  rw [boot_provision_check, if_pos hcond]
  exact ⟨rfl, by decide⟩

/-- Witness for C9 at the concrete failing code `ESP_FAIL`. -/
theorem c9_witness :
    boot_provision_check ESP_FAIL true =
      [Call.wifi_prov_mgr_is_provisioned, Call.wifi_prov_mgr_init,
       Call.wifi_prov_mgr_start_provisioning, Call.esp_qrcode_generate] ∧
    Call.esp_abort ∉ boot_provision_check ESP_FAIL true :=
  c9_is_provisioned_error_starts_provisioning ESP_FAIL true (by decide)

/-- Claim C10: the button handler is independent of the session state (the
C code consults none), and after an already-provisioned boot — where the
provisioning manager was never initialized — an accepted press still runs
disconnect, stop, reset, deinit, init, start, QR; the states observed
before each of these calls show that stop, reset and deinit execute while
`inited = false`. -/
theorem c10_unconditional_restart_after_provisioned_boot :
    (∀ s t : ProvState,
      handleEvent s (Event.buttonPress true) = handleEvent t (Event.buttonPress true)) ∧
    ((boot_provision_check ESP_OK true).foldl applyCall initialProvState).inited = false ∧
    handleEvent ((boot_provision_check ESP_OK true).foldl applyCall initialProvState)
        (Event.buttonPress true) =
      [Call.esp_wifi_disconnect, Call.wifi_prov_mgr_stop_provisioning,
       Call.wifi_prov_mgr_reset_provisioning, Call.wifi_prov_mgr_deinit,
       Call.wifi_prov_mgr_init, Call.wifi_prov_mgr_start_provisioning,
       Call.esp_qrcode_generate] ∧
    statesBefore ((boot_provision_check ESP_OK true).foldl applyCall initialProvState)
        (handleEvent ((boot_provision_check ESP_OK true).foldl applyCall initialProvState)
          (Event.buttonPress true)) =
      [⟨false, false⟩, ⟨false, false⟩, ⟨false, false⟩, ⟨false, false⟩, ⟨false, false⟩,
       ⟨true, false⟩, ⟨true, true⟩] :=
  ⟨fun _ _ => rfl, by decide, by decide, by decide⟩

/-- Result of a code fragment whose error handling matters: the calls it
performed and whether a failing `ESP_ERROR_CHECK` aborted it. -/
structure CheckedRun where
  calls : List Call
  aborted : Bool
deriving DecidableEq, Repr

/-- The NVS initialization fragment of `app_main` (lines 117-121),
parameterized by the return codes of the first `nvs_flash_init`, of
`nvs_flash_erase` and of the second `nvs_flash_init`.  Only the two
corruption codes trigger the erase-then-reinitialize path; the erase and
the reinitialize are wrapped in `ESP_ERROR_CHECK`, the first
`nvs_flash_init` result is otherwise not checked. -/
def nvs_boot_r (r1 rErase r2 : Int) : CheckedRun :=
  if r1 = ESP_ERR_NVS_NO_FREE_PAGES ∨ r1 = ESP_ERR_NVS_NEW_VERSION_FOUND then
    if rErase ≠ ESP_OK then
      ⟨[Call.nvs_flash_init, Call.nvs_flash_erase, Call.esp_abort], true⟩
    else if r2 ≠ ESP_OK then
      ⟨[Call.nvs_flash_init, Call.nvs_flash_erase, Call.nvs_flash_init, Call.esp_abort], true⟩
    else
      ⟨[Call.nvs_flash_init, Call.nvs_flash_erase, Call.nvs_flash_init], false⟩
  else
    ⟨[Call.nvs_flash_init], false⟩

/-- The `start_provisioning` function (lines 67-83) with its two
`ESP_ERROR_CHECK`s, parameterized by the return codes of
`wifi_prov_mgr_init` and `wifi_prov_mgr_start_provisioning`. -/
def start_provisioning_r (rInit rStart : Int) : CheckedRun :=
  if rInit ≠ ESP_OK then
    ⟨[Call.wifi_prov_mgr_init, Call.esp_abort], true⟩
  else if rStart ≠ ESP_OK then
    ⟨[Call.wifi_prov_mgr_init, Call.wifi_prov_mgr_start_provisioning, Call.esp_abort], true⟩
  else
    ⟨start_provisioning, false⟩

/-- The `stop_provisioning` function (lines 86-90).  In the manager API
`wifi_prov_mgr_stop_provisioning` and `wifi_prov_mgr_deinit` return no
status; `wifi_prov_mgr_reset_provisioning` returns an `esp_err_t`, and the
C code discards it — there is no `ESP_ERROR_CHECK` in this function, so no
return code can make it abort. -/
def stop_provisioning_r (_rReset : Int) : CheckedRun :=
  ⟨stop_provisioning, false⟩

/-- Counterexample to claim C5: a first `nvs_flash_init` failure other
than the two recoverable corruption codes (here `ESP_FAIL`) neither aborts
the boot sequence nor triggers recovery — `app_main` just continues. -/
theorem c5_counterexample :
    ESP_FAIL ≠ ESP_OK ∧
    ESP_FAIL ≠ ESP_ERR_NVS_NO_FREE_PAGES ∧
    ESP_FAIL ≠ ESP_ERR_NVS_NEW_VERSION_FOUND ∧
    (nvs_boot_r ESP_FAIL ESP_OK ESP_OK).aborted = false ∧
    (nvs_boot_r ESP_FAIL ESP_OK ESP_OK).calls = [Call.nvs_flash_init] := by
  refine ⟨by decide, by decide, by decide, ?_, ?_⟩ <;>
    simp [nvs_boot_r, ESP_FAIL, ESP_ERR_NVS_NO_FREE_PAGES, ESP_ERR_NVS_NEW_VERSION_FOUND]

/-- Claim C5 as amended: persistent-store initialization recovers from
exactly the two corruption codes by erase-then-reinitialize, aborting only
when the erase or the reinitialize itself fails; any other non-OK result
of the first `nvs_flash_init` is ignored and boot continues without
recovery or abort. -/
theorem c5_amended_nvs_recovery (r1 rErase r2 : Int) :
    (r1 = ESP_ERR_NVS_NO_FREE_PAGES ∨ r1 = ESP_ERR_NVS_NEW_VERSION_FOUND →
      ((nvs_boot_r r1 rErase r2).aborted = false ↔ rErase = ESP_OK ∧ r2 = ESP_OK) ∧
      (rErase = ESP_OK → r2 = ESP_OK →
        (nvs_boot_r r1 rErase r2).calls =
          [Call.nvs_flash_init, Call.nvs_flash_erase, Call.nvs_flash_init])) ∧
    (r1 ≠ ESP_ERR_NVS_NO_FREE_PAGES → r1 ≠ ESP_ERR_NVS_NEW_VERSION_FOUND →
      nvs_boot_r r1 rErase r2 = ⟨[Call.nvs_flash_init], false⟩) := by
  constructor
  · intro hcond
    rw [nvs_boot_r, if_pos hcond]
    constructor
    · by_cases hE : rErase = ESP_OK
      · by_cases h2 : r2 = ESP_OK <;> simp [hE, h2]
      · simp [hE]
    · intro hE h2
      simp [hE, h2]
  · intro h1 h2
    rw [nvs_boot_r, if_neg]
    simp [h1, h2]

/-- Witness for the amended C5 at concrete return codes: the recoverable
path with both follow-up calls succeeding, and an unrelated failure code
on the first initialization. -/
theorem c5_amended_witness :
    (nvs_boot_r ESP_ERR_NVS_NO_FREE_PAGES ESP_OK ESP_OK).calls =
      [Call.nvs_flash_init, Call.nvs_flash_erase, Call.nvs_flash_init] ∧
    nvs_boot_r ESP_FAIL ESP_OK ESP_OK = ⟨[Call.nvs_flash_init], false⟩ :=
  ⟨((c5_amended_nvs_recovery ESP_ERR_NVS_NO_FREE_PAGES ESP_OK ESP_OK).1
      (Or.inl rfl)).2 rfl rfl,
   (c5_amended_nvs_recovery ESP_FAIL ESP_OK ESP_OK).2 (by decide) (by decide)⟩

/-- Counterexample to claim C6: a non-success return from
`wifi_prov_mgr_reset_provisioning` does not abort — `stop_provisioning`
discards it and the program continues through deinit. -/
theorem c6_counterexample :
    ESP_FAIL ≠ ESP_OK ∧
    (stop_provisioning_r ESP_FAIL).aborted = false ∧
    (stop_provisioning_r ESP_FAIL).calls =
      [Call.wifi_prov_mgr_stop_provisioning, Call.wifi_prov_mgr_reset_provisioning,
       Call.wifi_prov_mgr_deinit] := by
  refine ⟨by decide, rfl, rfl⟩

/-- Claim C6 as amended: the init and start operations are wrapped in
`ESP_ERROR_CHECK`, so any non-OK return from them aborts the boot sequence
at that point; the stop and deinit operations return no status, and the
reset operation's return value is discarded, so `stop_provisioning` never
aborts. -/
theorem c6_amended_fatal_init_start (rInit rStart rReset : Int) :
    (rInit ≠ ESP_OK →
      start_provisioning_r rInit rStart = ⟨[Call.wifi_prov_mgr_init, Call.esp_abort], true⟩) ∧
    (rInit = ESP_OK → rStart ≠ ESP_OK →
      start_provisioning_r rInit rStart =
        ⟨[Call.wifi_prov_mgr_init, Call.wifi_prov_mgr_start_provisioning, Call.esp_abort],
         true⟩) ∧
    (rInit = ESP_OK → rStart = ESP_OK →
      start_provisioning_r rInit rStart = ⟨start_provisioning, false⟩) ∧
    (stop_provisioning_r rReset).aborted = false := by
  refine ⟨?_, ?_, ?_, rfl⟩
  · intro h
    rw [start_provisioning_r, if_pos h]
  · intro h1 h2
    rw [start_provisioning_r, if_neg (by simp [h1]), if_pos h2]
  · intro h1 h2
    rw [start_provisioning_r, if_neg (by simp [h1]), if_neg (by simp [h2])]

/-- Witness for the amended C6 at concrete return codes: a failing init
aborts, a clean init-and-start does not, and a failing reset never
aborts. -/
theorem c6_amended_witness :
    start_provisioning_r ESP_FAIL ESP_OK =
      ⟨[Call.wifi_prov_mgr_init, Call.esp_abort], true⟩ ∧
    start_provisioning_r ESP_OK ESP_OK = ⟨start_provisioning, false⟩ ∧
    (stop_provisioning_r ESP_FAIL).aborted = false :=
  ⟨(c6_amended_fatal_init_start ESP_FAIL ESP_OK ESP_FAIL).1 (by decide),
   (c6_amended_fatal_init_start ESP_OK ESP_OK ESP_FAIL).2.2.1 rfl rfl,
   (c6_amended_fatal_init_start ESP_OK ESP_OK ESP_FAIL).2.2.2⟩

/-- GPIO number of the button, `GPIO_NUM_32`. -/
def BUTTON_PIN : Nat := 32

/-- Debounce settle delay in milliseconds (`DEBOUNCE_MS`). -/
def DEBOUNCE_MS : Nat := 50

/-- Capacity of the button event queue, from `xQueueCreate(5, sizeof(uint32_t))`
(app_main.c line 151). -/
def QUEUE_CAPACITY : Nat := 5

/-- The non-blocking ISR-side enqueue `xQueueSendFromISR`: append when the
queue has room, otherwise drop the event and leave the queue unchanged. -/
def xQueueSendFromISR (q : List Nat) (x : Nat) : List Nat :=
  if q.length < QUEUE_CAPACITY then q ++ [x] else q

/-- The interrupt handler `button_isr_handler` (lines 93-96): enqueue the
pin identifier, nothing else. -/
def button_isr_handler (q : List Nat) (gpio : Nat) : List Nat :=
  xQueueSendFromISR q gpio

/-- Enqueue `n` raw edge interrupts on the button pin, starting from queue
`q` — the ISR runs once per edge. -/
def enqueueEdges : Nat → List Nat → List Nat
  | 0, q => q
  | n + 1, q => enqueueEdges n (button_isr_handler q BUTTON_PIN)

/-- Observable actions of the button worker: the debounce delay, one pin
sample, and the forwarding of a reprovision trigger (the
disconnect/stop/start sequence of `button_task`). -/
inductive BAct
  | delayMs (ms : Nat)
  | samplePin (gpio : Nat)
  | reprovisionTrigger
deriving DecidableEq, Repr

/-- Predicate selecting pin samples. -/
def isSample : BAct → Bool
  | BAct.samplePin _ => true
  | _ => false

/-- Predicate selecting forwarded triggers. -/
def isTrigger : BAct → Bool
  | BAct.reprovisionTrigger => true
  | _ => false

/-- The worker loop body of `button_task` (lines 99-112), drained over a
queue snapshot: for each dequeued identifier it delays `DEBOUNCE_MS`,
samples the pin once (`gpio_get_level`), and forwards a trigger exactly
when the sampled level is high.  `levels k` is the pin level observed at
the `k`-th sample. -/
def button_task_drain (levels : Nat → Bool) : List Nat → Nat → List BAct
  | [], _ => []
  | g :: q, k =>
      BAct.delayMs DEBOUNCE_MS :: BAct.samplePin g ::
        ((if levels k then [BAct.reprovisionTrigger] else []) ++
          button_task_drain levels q (k + 1))

/-- Number of samples in a worker action list. -/
def numSamples (l : List BAct) : Nat := l.countP isSample

/-- Number of forwarded triggers in a worker action list. -/
def numTriggers (l : List BAct) : Nat := l.countP isTrigger

/-- Number of indices `k, k+1, ..., k+m-1` at which `levels` reads high. -/
def countRange (levels : Nat → Bool) : Nat → Nat → Nat
  | _, 0 => 0
  | k, m + 1 => (if levels k then 1 else 0) + countRange levels (k + 1) m

/-- Triggers forwarded for one physical press whose bounce delivers `n`
raw edges into an initially empty queue before the worker drains it. -/
def triggerCount (levels : Nat → Bool) (n : Nat) : Nat :=
  numTriggers (button_task_drain levels (enqueueEdges n []) 0)

lemma enqueueEdges_length (n : Nat) :
    ∀ q : List Nat, q.length ≤ QUEUE_CAPACITY →
      (enqueueEdges n q).length = min (q.length + n) QUEUE_CAPACITY := by
  induction n with
  | zero =>
      intro q hq
      simp [enqueueEdges]
      omega
  | succ n ih =>
      intro q hq
      rw [enqueueEdges, button_isr_handler, xQueueSendFromISR]
      by_cases hfull : q.length < QUEUE_CAPACITY
      · rw [if_pos hfull, ih (q ++ [BUTTON_PIN]) (by simpa using hfull)]
        simp
        omega
      · rw [if_neg hfull, ih q hq]
        omega

lemma button_task_drain_triggers (levels : Nat → Bool) (q : List Nat) :
    ∀ k, numTriggers (button_task_drain levels q k) = countRange levels k q.length := by
  induction q with
  | nil => intro k; simp [button_task_drain, numTriggers, countRange]
  | cons g q ih =>
      intro k
      have ih2 := ih (k + 1)
      simp only [numTriggers] at ih2 ⊢
      rw [button_task_drain]
      by_cases h : levels k = true
      · simp [h, List.countP_cons, List.countP_append, countRange, isTrigger, ih2]
        omega
      · simp [h, List.countP_cons, List.countP_append, countRange, isTrigger, ih2]

lemma button_task_drain_samples (levels : Nat → Bool) (q : List Nat) :
    ∀ k, numSamples (button_task_drain levels q k) = q.length := by
  induction q with
  | nil => intro k; simp [button_task_drain, numSamples]
  | cons g q ih =>
      intro k
      have ih2 := ih (k + 1)
      simp only [numSamples] at ih2 ⊢
      rw [button_task_drain]
      by_cases h : levels k = true <;>
        simp [h, List.countP_cons, List.countP_append, isSample, ih2, Nat.add_comm]

/-- Counterexample to claim C3: two raw edges delivered within one debounce
window (both enqueued before the worker drains), with the button still held
at both post-settle samples, produce two reprovision triggers, not exactly
one — the capacity-5 queue does not coalesce pending edges into a
single-slot mailbox. -/
theorem c3_counterexample :
    triggerCount (fun _ => true) 2 = 2 ∧ triggerCount (fun _ => true) 2 ≠ 1 := by
  constructor <;> decide

/-- Claim C3 as amended: of `n` raw edges delivered within one debounce
window, `min n 5` are retained (the capacity-5 queue drops the excess) and
the worker forwards one trigger per retained edge whose own post-settle
sample reads high — so a press whose bounce delivers several edges while
the button stays pressed yields several triggers, not one; coalescing
happens only through queue overflow. -/
theorem c3_amended_one_trigger_per_retained_edge (n : Nat) (levels : Nat → Bool) :
    (enqueueEdges n []).length = min n QUEUE_CAPACITY ∧
    triggerCount levels n = countRange levels 0 (min n QUEUE_CAPACITY) := by
  have hlen := enqueueEdges_length n [] (by simp [QUEUE_CAPACITY])
  simp only [List.length_nil, Nat.zero_add] at hlen
  refine ⟨hlen, ?_⟩
  rw [triggerCount, button_task_drain_triggers, hlen]

/-- Claim C4: the ISR-side enqueue drops the event when the queue already
holds 5 entries and appends otherwise (never blocking); the worker handles
one dequeued identifier at a time — first the fixed settle delay, then
exactly one pin sample per entry — and forwards a reprovision trigger for
an entry if and only if its post-settle sampled level is high. -/
theorem c4_worker_debounce_and_bounded_queue :
    (∀ a b c d e x : Nat, button_isr_handler [a, b, c, d, e] x = [a, b, c, d, e]) ∧
    (∀ (q : List Nat) (x : Nat), q.length < QUEUE_CAPACITY →
      button_isr_handler q x = q ++ [x]) ∧
    (∀ (levels : Nat → Bool) (g : Nat) (q : List Nat) (k : Nat),
      (button_task_drain levels (g :: q) k).take 2 =
        [BAct.delayMs DEBOUNCE_MS, BAct.samplePin g]) ∧
    (∀ (levels : Nat → Bool) (q : List Nat) (k : Nat),
      numSamples (button_task_drain levels q k) = q.length) ∧
    (∀ (levels : Nat → Bool) (g k : Nat),
      BAct.reprovisionTrigger ∈ button_task_drain levels [g] k ↔ levels k = true) := by
  refine ⟨fun a b c d e x => rfl, ?_, fun levels g q k => rfl,
    fun levels q k => button_task_drain_samples levels q k, ?_⟩
  · intro q x h
    rw [button_isr_handler, xQueueSendFromISR, if_pos h]
  · intro levels g k
    by_cases h : levels k = true <;> simp [button_task_drain, h]

/-- Witness for C4 at concrete inputs: a full queue drops a sixth event, a
one-element queue appends, and a held button at the sample yields a
trigger. -/
theorem c4_witness :
    button_isr_handler [7, 7, 7, 7, 7] 32 = [7, 7, 7, 7, 7] ∧
    button_isr_handler [7] 32 = [7] ++ [32] ∧
    (BAct.reprovisionTrigger ∈ button_task_drain (fun _ => true) [32] 0 ↔
      (fun _ : Nat => true) 0 = true) :=
  ⟨c4_worker_debounce_and_bounded_queue.1 7 7 7 7 7 32,
   c4_worker_debounce_and_bounded_queue.2.1 [7] 32 (by decide),
   c4_worker_debounce_and_bounded_queue.2.2.2.2 (fun _ => true) 32 0⟩

/-- Truncating write of `snprintf(buf, max, ...)` at the character level:
at most `max - 1` characters are stored, the rest is cut off. -/
def snprintf_chars (max : Nat) (l : List Char) : List Char := l.take (max - 1)

/-- One uppercase hexadecimal digit, as produced by the `%X` conversion. -/
def hexDigit (n : Nat) : Char :=
  if n < 10 then Char.ofNat (48 + n) else Char.ofNat (55 + n)

/-- The `%02X` conversion of one MAC byte: exactly two uppercase hex
digits, high nibble first. -/
def hex2 (b : Fin 256) : List Char :=
  [hexDigit (b.val / 16), hexDigit (b.val % 16)]

/-- Character list written by `get_device_service_name` (lines 60-64) into
its 12-byte buffer: `snprintf(name, max, "PROV_%02X%02X%02X", mac[3],
mac[4], mac[5])` with `max = sizeof(service_name) = 12`. -/
def service_name_chars (mac : Fin 6 → Fin 256) : List Char :=
  snprintf_chars 12 ("PROV_".data ++ hex2 (mac 3) ++ hex2 (mac 4) ++ hex2 (mac 5))

/-- The generated service name as a string. -/
def get_device_service_name (mac : Fin 6 → Fin 256) : String :=
  String.mk (service_name_chars mac)

/-- Predicate for the characters `%02X` can produce: decimal digits and
uppercase `A`-`F`. -/
def isUpperHexChar (c : Char) : Bool :=
  (48 ≤ c.toNat && c.toNat ≤ 57) || (65 ≤ c.toNat && c.toNat ≤ 70)

lemma hexDigit_upperHex : ∀ n : Fin 16, isUpperHexChar (hexDigit n.val) = true := by decide

lemma hex2_upperHex (b : Fin 256) : ∀ c ∈ hex2 b, isUpperHexChar c = true := by
  intro c hc
  rw [hex2] at hc
  rcases List.mem_cons.mp hc with h | h
  · subst h
    exact hexDigit_upperHex ⟨b.val / 16, by omega⟩
  · rw [List.mem_singleton] at h
    subst h
    exact hexDigit_upperHex ⟨b.val % 16, by omega⟩

lemma hex2_length (b : Fin 256) : (hex2 b).length = 2 := rfl

lemma service_name_chars_eq (mac : Fin 6 → Fin 256) :
    service_name_chars mac =
      "PROV_".data ++ (hex2 (mac 3) ++ hex2 (mac 4) ++ hex2 (mac 5)) := by
  rw [service_name_chars, snprintf_chars]
  rw [List.take_of_length_le (by simp [hex2])]
  simp

lemma service_name_chars_length (mac : Fin 6 → Fin 256) :
    (service_name_chars mac).length = 11 := by
  rw [service_name_chars_eq]
  simp [hex2]

/-- Claim C7: for every 6-byte MAC address the generated service name has
exactly 11 characters, starts with the prefix `PROV_`, continues with 6
uppercase hexadecimal characters, and is a deterministic function of the
last 3 MAC bytes alone: two MAC addresses agreeing on bytes 3, 4 and 5
yield the same name on every invocation. -/
theorem c7_service_name_shape (mac mac2 : Fin 6 → Fin 256) :
    (service_name_chars mac).length = 11 ∧
    (service_name_chars mac).take 5 = "PROV_".data ∧
    (∀ c ∈ (service_name_chars mac).drop 5, isUpperHexChar c = true) ∧
    (mac 3 = mac2 3 → mac 4 = mac2 4 → mac 5 = mac2 5 →
      get_device_service_name mac = get_device_service_name mac2) := by
  refine ⟨service_name_chars_length mac, ?_, ?_, ?_⟩
  · rw [service_name_chars_eq]
    exact List.take_left' (show ("PROV_".data).length = 5 from rfl)
  · intro c hc
    rw [service_name_chars_eq,
      List.drop_left' (show ("PROV_".data).length = 5 from rfl)] at hc
    rcases List.mem_append.mp hc with h | h
    · rcases List.mem_append.mp h with h2 | h2
      · exact hex2_upperHex (mac 3) c h2
      · exact hex2_upperHex (mac 4) c h2
    · exact hex2_upperHex (mac 5) c h
  · intro h3 h4 h5
    rw [get_device_service_name, get_device_service_name, service_name_chars,
      service_name_chars, h3, h4, h5]

/-- Witness for C7 at a concrete MAC address. -/
theorem c7_witness :
    (service_name_chars (fun _ => (171 : Fin 256))).length = 11 ∧
    (service_name_chars (fun _ => (171 : Fin 256))).take 5 = "PROV_".data ∧
    get_device_service_name (fun _ => (171 : Fin 256)) =
      get_device_service_name (fun _ => (171 : Fin 256)) :=
  ⟨(c7_service_name_shape (fun _ => 171) (fun _ => 171)).1,
   (c7_service_name_shape (fun _ => 171) (fun _ => 171)).2.1,
   (c7_service_name_shape (fun _ => 171) (fun _ => 171)).2.2.2 rfl rfl rfl⟩

/-- Protocol version tag `PROV_QR_VERSION`. -/
def PROV_QR_VERSION : String := "v1"

/-- Transport tag `PROV_TRANSPORT_BLE`. -/
def PROV_TRANSPORT_BLE : String := "ble"

/-- Fixed proof-of-possession secret `pop` (app_main.c line 28). -/
def pop : String := "abcd1234"

/-- Character list written by the payload `snprintf` of `start_provisioning`
(lines 76-78) into its 150-byte buffer:
`snprintf(payload, 150, "..." , PROV_QR_VERSION, service_name, pop,
PROV_TRANSPORT_BLE)` for a given service name. -/
def payload_chars (name : List Char) : List Char :=
  snprintf_chars 150
    ("\x7b\"ver\":\"".data ++ PROV_QR_VERSION.data ++ "\",\"name\":\"".data ++ name ++
      "\",\"pop\":\"".data ++ pop.data ++ "\",\"transport\":\"".data ++
      PROV_TRANSPORT_BLE.data ++ "\"\x7d".data)

/-- JSON string-literal body parser: consumes characters after an opening
quote up to the closing quote, handling the two escapes `\"` and `\\`;
returns the decoded content and the remaining input. -/
def pStr : List Char → Option (List Char × List Char)
  | [] => none
  | c :: cs =>
    if c = '"' then some ([], cs)
    else if c = '\\' then
      match cs with
      | [] => none
      | d :: cs2 =>
        if d = '"' ∨ d = '\\' then
          match pStr cs2 with
          | some (s, r) => some (d :: s, r)
          | none => none
        else none
    else
      match pStr cs with
      | some (s, r) => some (c :: s, r)
      | none => none

/-- Parser for one `"key":"value"` member of a flat JSON object with
string values. -/
def pMember (cs : List Char) : Option ((String × String) × List Char) :=
  match cs with
  | [] => none
  | c :: cs1 =>
    if c = '"' then
      match pStr cs1 with
      | some (k, ':' :: q :: cs2) =>
        if q = '"' then
          match pStr cs2 with
          | some (v, rest) => some ((String.mk k, String.mk v), rest)
          | none => none
        else none
      | _ => none
    else none

/-- Parser for a comma-separated member list terminated by `\x7d`, with
fuel bounding the number of members. -/
def pMembers : Nat → List Char → Option (List (String × String) × List Char)
  | 0, _ => none
  | fuel + 1, cs =>
    match pMember cs with
    | some (kv, c :: rest) =>
      if c = ',' then
        match pMembers fuel rest with
        | some (l, r) => some (kv :: l, r)
        | none => none
      else if c = '\x7d' then some ([kv], rest)
      else none
    | _ => none

/-- Parser for a whole flat JSON object over a character list: an opening
brace, the member list, a closing brace, nothing after. -/
def parse_json_chars : List Char → Option (List (String × String))
  | [] => none
  | c :: cs =>
    if c = '\x7b' then
      if cs = ['\x7d'] then some []
      else
        match pMembers cs.length cs with
        | some (l, []) => some l
        | _ => none
    else none

/-- Parser for a whole flat JSON object over a string. -/
def parse_json_object (s : String) : Option (List (String × String)) :=
  parse_json_chars s.data

/-- Characters that need no JSON string escaping: neither a quote nor a
backslash. -/
def goodChar (c : Char) : Bool := (c != '"') && (c != '\\')

/-- Tail of the serialized payload from the `transport` member on. -/
def tailTransport : List Char :=
  '"' :: (['t', 'r', 'a', 'n', 's', 'p', 'o', 'r', 't'] ++
    '"' :: ':' :: '"' :: (['b', 'l', 'e'] ++ '"' :: '\x7d' :: []))

/-- Tail of the serialized payload from the `pop` member on. -/
def tailPop : List Char :=
  '"' :: (['p', 'o', 'p'] ++
    '"' :: ':' :: '"' :: (['a', 'b', 'c', 'd', '1', '2', '3', '4'] ++ '"' :: ',' :: tailTransport))

/-- Tail of the serialized payload from the `name` member on. -/
def tailName (name : List Char) : List Char :=
  '"' :: (['n', 'a', 'm', 'e'] ++ '"' :: ':' :: '"' :: (name ++ '"' :: ',' :: tailPop))

/-- The serialized payload after the opening brace, starting at the `ver`
member. -/
def membersVer (name : List Char) : List Char :=
  '"' :: (['v', 'e', 'r'] ++ '"' :: ':' :: '"' :: (['v', '1'] ++ '"' :: ',' :: tailName name))

lemma pStr_append (s : List Char) (rest : List Char)
    (h : ∀ c ∈ s, goodChar c = true) :
    pStr (s ++ '"' :: rest) = some (s, rest) := by
  induction s with
  | nil =>
      rw [List.nil_append, pStr.eq_def]
      simp
  | cons c cs ih =>
      have hc := h c (List.mem_cons_self c cs)
      simp only [goodChar, Bool.and_eq_true, bne_iff_ne, ne_eq] at hc
      have ih2 := ih (fun x hx => h x (List.mem_cons_of_mem c hx))
      rw [List.cons_append, pStr.eq_def]
      simp [hc.1, hc.2, ih2]

lemma pMember_quoted (k v rest : List Char)
    (hk : ∀ c ∈ k, goodChar c = true) (hv : ∀ c ∈ v, goodChar c = true) :
    pMember ('"' :: (k ++ '"' :: ':' :: '"' :: (v ++ '"' :: rest))) =
      some ((String.mk k, String.mk v), rest) := by
  have h1 := pStr_append k (':' :: '"' :: (v ++ '"' :: rest)) hk
  have h2 := pStr_append v rest hv
  simp [pMember, h1, h2]

lemma pMembers_cons_member (fuel : Nat) (k v more : List Char)
    (l : List (String × String)) (r : List Char)
    (hk : ∀ c ∈ k, goodChar c = true) (hv : ∀ c ∈ v, goodChar c = true)
    (h : pMembers fuel more = some (l, r)) :
    pMembers (fuel + 1) ('"' :: (k ++ '"' :: ':' :: '"' :: (v ++ '"' :: ',' :: more))) =
      some ((String.mk k, String.mk v) :: l, r) := by
  have hq := pMember_quoted k v (',' :: more) hk hv
  simp [pMembers, hq, h]

lemma pMembers_last_member (fuel : Nat) (k v tail : List Char)
    (hk : ∀ c ∈ k, goodChar c = true) (hv : ∀ c ∈ v, goodChar c = true) :
    pMembers (fuel + 1) ('"' :: (k ++ '"' :: ':' :: '"' :: (v ++ '"' :: '\x7d' :: tail))) =
      some ([(String.mk k, String.mk v)], tail) := by
  have hq := pMember_quoted k v ('\x7d' :: tail) hk hv
  simp [pMembers, hq]

lemma pMembers_transport (fuel : Nat) :
    pMembers (fuel + 1) tailTransport = some ([("transport", "ble")], []) := by
  unfold tailTransport
  exact pMembers_last_member fuel ['t', 'r', 'a', 'n', 's', 'p', 'o', 'r', 't']
    ['b', 'l', 'e'] [] (by decide) (by decide)

lemma pMembers_pop (fuel : Nat) :
    pMembers (fuel + 2) tailPop =
      some ([("pop", "abcd1234"), ("transport", "ble")], []) := by
  unfold tailPop
  exact pMembers_cons_member (fuel + 1) ['p', 'o', 'p']
    ['a', 'b', 'c', 'd', '1', '2', '3', '4'] tailTransport [("transport", "ble")] []
    (by decide) (by decide) (pMembers_transport fuel)

lemma pMembers_name_tail (fuel : Nat) (name : List Char)
    (hname : ∀ c ∈ name, goodChar c = true) :
    pMembers (fuel + 3) (tailName name) =
      some ([("name", String.mk name), ("pop", "abcd1234"), ("transport", "ble")], []) := by
  unfold tailName
  exact pMembers_cons_member (fuel + 2) ['n', 'a', 'm', 'e'] name tailPop
    [("pop", "abcd1234"), ("transport", "ble")] [] (by decide) hname (pMembers_pop fuel)

lemma pMembers_ver (fuel : Nat) (name : List Char)
    (hname : ∀ c ∈ name, goodChar c = true) :
    pMembers (fuel + 4) (membersVer name) =
      some ([("ver", "v1"), ("name", String.mk name), ("pop", "abcd1234"),
             ("transport", "ble")], []) := by
  unfold membersVer
  exact pMembers_cons_member (fuel + 3) ['v', 'e', 'r'] ['v', '1'] (tailName name)
    [("name", String.mk name), ("pop", "abcd1234"), ("transport", "ble")] []
    (by decide) (by decide) (pMembers_name_tail fuel name hname)

lemma payload_chars_untruncated (name : List Char) (h : name.length ≤ 11) :
    payload_chars name = '\x7b' :: membersVer name := by
  have hb : ("\x7b\"ver\":\"".data ++ PROV_QR_VERSION.data ++ "\",\"name\":\"".data ++ name ++
      "\",\"pop\":\"".data ++ pop.data ++ "\",\"transport\":\"".data ++
      PROV_TRANSPORT_BLE.data ++ "\"\x7d".data).length ≤ 149 := by
    simp only [PROV_QR_VERSION, pop, PROV_TRANSPORT_BLE, List.length_append,
      show ("\x7b\"ver\":\"").data.length = 8 from rfl,
      show ("v1").data.length = 2 from rfl,
      show ("\",\"name\":\"").data.length = 10 from rfl,
      show ("\",\"pop\":\"").data.length = 9 from rfl,
      show ("abcd1234").data.length = 8 from rfl,
      show ("\",\"transport\":\"").data.length = 15 from rfl,
      show ("ble").data.length = 3 from rfl,
      show ("\"\x7d").data.length = 2 from rfl]
    omega
  rw [payload_chars, snprintf_chars, show (150 : Nat) - 1 = 149 from rfl,
    List.take_of_length_le hb]
  simp only [PROV_QR_VERSION, pop, PROV_TRANSPORT_BLE, membersVer, tailName, tailPop,
    tailTransport,
    show ("\x7b\"ver\":\"").data = ['\x7b', '"', 'v', 'e', 'r', '"', ':', '"'] from rfl,
    show ("v1").data = ['v', '1'] from rfl,
    show ("\",\"name\":\"").data = ['"', ',', '"', 'n', 'a', 'm', 'e', '"', ':', '"'] from rfl,
    show ("\",\"pop\":\"").data = ['"', ',', '"', 'p', 'o', 'p', '"', ':', '"'] from rfl,
    show ("abcd1234").data = ['a', 'b', 'c', 'd', '1', '2', '3', '4'] from rfl,
    show ("\",\"transport\":\"").data =
      ['"', ',', '"', 't', 'r', 'a', 'n', 's', 'p', 'o', 'r', 't', '"', ':', '"'] from rfl,
    show ("ble").data = ['b', 'l', 'e'] from rfl,
    show ("\"\x7d").data = ['"', '\x7d'] from rfl,
    List.cons_append, List.nil_append, List.append_assoc]

lemma membersVer_length (name : List Char) :
    (membersVer name).length = name.length + 52 + 4 := by
  simp only [membersVer, tailName, tailPop, tailTransport, List.length_cons,
    List.length_append, List.length_nil]
  omega

/-- Claim C8: for every service name of at most the declared maximum
length (11 characters, from the 12-byte buffer) containing no character
that JSON would escape, the encoded payload parses back as a flat JSON
object with exactly the four members `ver`, `name`, `pop`, `transport`
carrying the input values and no extraneous keys, and its serialized
length never exceeds the 150-byte buffer (at most 149 characters plus the
terminator). -/
theorem c8_payload_roundtrip (name : List Char) (hlen : name.length ≤ 11)
    (hgood : ∀ c ∈ name, goodChar c = true) :
    parse_json_object (String.mk (payload_chars name)) =
      some [("ver", "v1"), ("name", String.mk name), ("pop", "abcd1234"),
            ("transport", "ble")] ∧
    (payload_chars name).length ≤ 149 := by
  constructor
  · show parse_json_chars (payload_chars name) = _
    rw [payload_chars_untruncated name hlen]
    have hne : ¬(membersVer name = ['\x7d']) := by simp [membersVer]
    have hm := pMembers_ver (name.length + 52) name hgood
    simp [parse_json_chars, hne, membersVer_length name, hm]
  · rw [payload_chars, snprintf_chars]
    simp only [List.length_take]
    omega

/-- Witness for C8 at a concrete service name of the shape the Service
Identity Generator produces. -/
theorem c8_witness :
    parse_json_object (String.mk (payload_chars "PROV_AABBCC".data)) =
      some [("ver", "v1"), ("name", String.mk "PROV_AABBCC".data), ("pop", "abcd1234"),
            ("transport", "ble")] ∧
    (payload_chars "PROV_AABBCC".data).length ≤ 149 :=
  c8_payload_roundtrip "PROV_AABBCC".data (by decide) (by decide)

/-- Every service name the generator produces satisfies the side
conditions of the payload round-trip: it is short enough and contains no
character that JSON would escape. -/
lemma service_name_chars_roundtrip_safe (mac : Fin 6 → Fin 256) :
    (service_name_chars mac).length ≤ 11 ∧
    ∀ c ∈ service_name_chars mac, goodChar c = true := by
  refine ⟨le_of_eq (service_name_chars_length mac), ?_⟩
  intro c hc
  rw [service_name_chars_eq] at hc
  rcases List.mem_append.mp hc with h | h
  · have hfix : ∀ x ∈ "PROV_".data, goodChar x = true := by decide
    exact hfix c h
  · have hhex : ∀ n : Fin 16, goodChar (hexDigit n.val) = true := by decide
    rcases List.mem_append.mp h with h2 | h2
    · rcases List.mem_append.mp h2 with h3 | h3
      · rw [hex2] at h3
        rcases List.mem_cons.mp h3 with h4 | h4
        · subst h4; exact hhex ⟨(mac 3).val / 16, by omega⟩
        · rw [List.mem_singleton] at h4
          subst h4; exact hhex ⟨(mac 3).val % 16, by omega⟩
      · rw [hex2] at h3
        rcases List.mem_cons.mp h3 with h4 | h4
        · subst h4; exact hhex ⟨(mac 4).val / 16, by omega⟩
        · rw [List.mem_singleton] at h4
          subst h4; exact hhex ⟨(mac 4).val % 16, by omega⟩
    · rw [hex2] at h2
      rcases List.mem_cons.mp h2 with h4 | h4
      · subst h4; exact hhex ⟨(mac 5).val / 16, by omega⟩
      · rw [List.mem_singleton] at h4
        subst h4; exact hhex ⟨(mac 5).val % 16, by omega⟩

end WifiProv
